import Mathlib

/-!
Shallow embedding of `src/v8go.cc` (the C boundary of the v8go binding).

The embedded engine (V8) is treated as a black box, exactly as the source
does: engine-produced data (captured exceptions, script outcomes, heap
statistics snapshots) enter the model as explicit inputs, while everything
the boundary code itself computes (the `m_value` / `m_ctx` /
`m_object_template` wrapper records, string copying, error marshalling,
null checks, field initialisation) is translated statement by statement.

Handles are modelled as numeric ids into association lists held in a
`World` record; a C pointer argument that may be null is `Option Nat`.
Operations that dereference a handle without a null check are partial in
the model: they return `none` (at an outer `Option` layer) when the
dereference would be undefined behaviour, e.g. when the handle is not
allocated or when a struct field the code reads was never initialised.

Record layouts (`RtnError`, `RtnValue`, `IsolateHStatistics`,
`ValueBigInt`) are reconstructed from their aggregate initialisations and
field accesses in `v8go.cc` (the declaring header is not part of `src/`),
and match the descriptions in §6 of the spec.
-/

/-- The eleven unsigned-integer heap-statistics fields, in the order they
are filled in `IsolationGetHeapStatistics` (v8go.cc:138-148). -/
structure IsolateHStatistics where
  total_heap_size : Nat
  total_heap_size_executable : Nat
  total_physical_size : Nat
  total_available_size : Nat
  used_heap_size : Nat
  heap_size_limit : Nat
  malloced_memory : Nat
  external_memory : Nat
  peak_malloced_memory : Nat
  number_of_native_contexts : Nat
  number_of_detached_contexts : Nat
  deriving DecidableEq

/-- Aggregate `IsolateHStatistics\x7b0\x7d` initialisation with a single `0`
zero-initialises every field (v8go.cc:132). -/
def zeroHeapStatistics : IsolateHStatistics :=
  { total_heap_size := 0
    total_heap_size_executable := 0
    total_physical_size := 0
    total_available_size := 0
    used_heap_size := 0
    heap_size_limit := 0
    malloced_memory := 0
    external_memory := 0
    peak_malloced_memory := 0
    number_of_native_contexts := 0
    number_of_detached_contexts := 0 }

/-- Engine-side state of one `Isolate` that the boundary code observes or
mutates: the capture-stack-traces flag set in `NewContext` (v8go.cc:216)
and the heap-statistics snapshot the engine would report, carried as
abstract black-box data. -/
structure IsoState where
  captureStackTraces : Bool
  heap : IsolateHStatistics
  deriving DecidableEq

/-- One named slot of an object template: either a concrete value handle
(`ObjectTemplateSetValue`) or a nested template (`ObjectTemplateSetObjectTemplate`). -/
inductive TmplSlot where
  | value (vid : Nat)
  | nested (tid : Nat)
  deriving DecidableEq

/-- Property layout of an `ObjectTemplate`: named slots with their
`PropertyAttribute` bit-set, in insertion order. -/
structure ObjTmpl where
  props : List (String × TmplSlot × Int)
  deriving DecidableEq

/-- Semantics of `ObjectTemplate::New(iso)`: a fresh empty template. -/
def emptyObjectTemplate : ObjTmpl := { props := [] }

/-- Engine heap values reachable through this boundary. Doubles are kept
as their uninterpreted 64-bit pattern (no claim inspects them). -/
inductive JSValue where
  | str (s : String)
  | int (n : Int)
  | num (bits : Nat)
  | boolean (b : Bool)
  | bigint (n : Int)
  deriving DecidableEq

/-- The `m_ctx` wrapper struct (v8go.cc:19-22): a persistent context
reference (modelled by the global layout of the context) plus its isolate. -/
structure MCtx where
  iso : Nat
  global : ObjTmpl
  deriving DecidableEq

/-- The `m_value` wrapper struct (v8go.cc:24-28): persistent value
reference, isolate, and the context back-reference `ctx_ptr`.
`ctx_ptr = none` models the field never having been assigned
(indeterminate in C; reading it is undefined behaviour). -/
structure MValue where
  ptr : JSValue
  iso : Nat
  ctx_ptr : Option Nat
  deriving DecidableEq

/-- All handle-addressed state: isolates, templates, contexts and values
live behind opaque pointers; `nextId` freshly allocates. -/
structure World where
  isolates : List (Nat × IsoState)
  templates : List (Nat × ObjTmpl)
  contexts : List (Nat × MCtx)
  values : List (Nat × MValue)
  nextId : Nat
  deriving DecidableEq

def emptyWorld : World :=
  { isolates := [], templates := [], contexts := [], values := [], nextId := 0 }

/-! ## String marshalling (v8go.cc:35-48) -/

/-- Embedding of the `CopyString(std::string)` overload (v8go.cc:35-41): malloc + copy, always
returns a (possibly empty) non-null buffer. Identity in the model. -/
def CopyStringStd (s : String) : String := s

/-- Embedding of the `CopyString(String::Utf8Value&)` overload (v8go.cc:43-48): returns the null
pointer when the text has length zero, otherwise a copy. -/
def CopyStringUtf8 (s : String) : Option String :=
  if s.length = 0 then none else some (CopyStringStd s)

/-! ## Error marshalling (v8go.cc:50-90) -/

/-- Diagnostic info the engine attached to a captured exception
(`try_catch.Message()` when non-empty): the resource name of the script
origin, and the maybe-available line number and 0-based start column. -/
structure MsgInfo where
  resourceName : String
  lineNumber : Option Int
  startColumn : Option Int
  deriving DecidableEq

/-- Black-box content of a `TryCatch` at the point `ExceptionError` reads
it: the terminated flag, the UTF-8 text of the thrown value, the optional
attached `Message`, and the optional stack-trace text. -/
structure TryCatchInfo where
  hasTerminated : Bool
  exceptionText : String
  message : Option MsgInfo
  stackTrace : Option String
  deriving DecidableEq

/-- The `RtnError` record: three independently nullable strings. -/
structure RtnError where
  msg : Option String
  location : Option String
  stack : Option String
  deriving DecidableEq

/-- The `<<`-chain of v8go.cc:69-79: resource name, then `":" << line`
only when the line is available, then `":" << column + 1` only when the
start column is available. -/
def locationString (m : MsgInfo) : String :=
  m.resourceName
    ++ (match m.lineNumber with
        | some l => ":" ++ toString l
        | none => "")
    ++ (match m.startColumn with
        | some c => ":" ++ toString (c + 1)
        | none => "")

/-- Embedding of `ExceptionError` (v8go.cc:50-90). -/
def ExceptionError (tc : TryCatchInfo) : RtnError :=
  if tc.hasTerminated then
    { msg := some (CopyStringStd
        "ExecutionTerminated: script execution has been terminated")
      location := none
      stack := none }
  else
    { msg := CopyStringUtf8 tc.exceptionText
      location := tc.message.map (fun m => CopyStringStd (locationString m))
      stack := tc.stackTrace.bind (fun st => CopyStringUtf8 st) }

/-! ## Isolate operations (v8go.cc:111-149) -/

/-- Embedding of `NewIsolate` (v8go.cc:111-115). The heap statistics of the
isolate are
engine-determined black-box data, supplied as a parameter. A fresh
isolate does not yet capture stack traces for uncaught exceptions. -/
def NewIsolate (w : World) (engineHeap : IsolateHStatistics) : Nat × World :=
  (w.nextId,
   { w with
     isolates := (w.nextId,
       { captureStackTraces := false, heap := engineHeap }) :: w.isolates
     nextId := w.nextId + 1 })

/-- Embedding of `IsolateDispose` (v8go.cc:117-123): explicit null check, then
`iso->Dispose()`. -/
def IsolateDispose (w : World) (ptr : Option Nat) : World :=
  match ptr with
  | none => w
  | some i => { w with isolates := w.isolates.filter (fun p => !(p.1 == i)) }

/-- Embedding of `IsolationGetHeapStatistics` (v8go.cc:130-149): a null handle yields
the zero-initialised record without touching any state; otherwise the
engine-reported snapshot of the isolate is copied out (outer `none` models the
undefined dereference of a dangling non-null handle). -/
def IsolationGetHeapStatistics (w : World) (ptr : Option Nat) :
    Option IsolateHStatistics × World :=
  match ptr with
  | none => (some zeroHeapStatistics, w)
  | some i => ((w.isolates.lookup i).map (fun iso => iso.heap), w)

/-! ## ObjectTemplate operations (v8go.cc:161-196) -/

/-- Embedding of `NewObjectTemplate` (v8go.cc:161-171). -/
def NewObjectTemplate (w : World) (isoPtr : Nat) : Option Nat × World :=
  match w.isolates.lookup isoPtr with
  | none => (none, w)
  | some _ =>
    (some w.nextId,
     { w with
       templates := (w.nextId, emptyObjectTemplate) :: w.templates
       nextId := w.nextId + 1 })

/-- Embedding of `ObjectTemplateDispose` (v8go.cc:173-175): a bare `delete`; C++
guarantees `delete` of a null pointer is a no-op that performs no
dereference. -/
def ObjectTemplateDispose (w : World) (ptr : Option Nat) : World :=
  match ptr with
  | none => w
  | some t => { w with templates := w.templates.filter (fun p => !(p.1 == t)) }

/-- Replace the entry at key `k` of an association list. -/
def setEntry {α : Type} (l : List (Nat × α)) (k : Nat) (v : α) : List (Nat × α) :=
  l.map (fun p => if p.1 = k then (k, v) else p)

/-- Embedding of `ObjectTemplateSetValue` (v8go.cc:177-187): `ObjectTemplate::Set` of a
value slot (engine semantics: last write wins; modelled as append). -/
def ObjectTemplateSetValue (w : World) (ptr : Nat) (name : String)
    (valPtr : Nat) (attributes : Int) : World :=
  match w.templates.lookup ptr with
  | none => w
  | some t =>
    let updated : ObjTmpl :=
      { props := t.props ++ [(name, TmplSlot.value valPtr, attributes)] }
    { w with templates := setEntry w.templates ptr updated }

/-- Embedding of `ObjectTemplateSetObjectTemplate` (v8go.cc:189-196). -/
def ObjectTemplateSetObjectTemplate (w : World) (ptr : Nat) (name : String)
    (objPtr : Nat) (attributes : Int) : World :=
  match w.templates.lookup ptr with
  | none => w
  | some t =>
    let updated : ObjTmpl :=
      { props := t.props ++ [(name, TmplSlot.nested objPtr, attributes)] }
    { w with templates := setEntry w.templates ptr updated }

/-! ## Context operations (v8go.cc:200-272) -/

/-- Embedding of `NewContext` (v8go.cc:200-222): resolve the global template (a fresh
empty one when the argument is null), enable capture of stack traces for
uncaught exceptions on the isolate, then allocate the `m_ctx`. -/
def NewContext (w : World) (isoPtr : Nat) (tmplPtr : Option Nat) :
    Option Nat × World :=
  match w.isolates.lookup isoPtr with
  | none => (none, w)
  | some iso =>
    match (match tmplPtr with
           | some t => w.templates.lookup t
           | none => some emptyObjectTemplate) with
    | none => (none, w)
    | some globalTemplate =>
      (some w.nextId,
       { w with
         isolates := setEntry w.isolates isoPtr
           ({ iso with captureStackTraces := true })
         contexts := (w.nextId,
           { iso := isoPtr, global := globalTemplate }) :: w.contexts
         nextId := w.nextId + 1 })

/-- Embedding of `ContextDispose` (v8go.cc:262-272): null check, `ptr.Reset()`,
`delete ctx`. -/
def ContextDispose (w : World) (ptr : Option Nat) : World :=
  match ptr with
  | none => w
  | some c => { w with contexts := w.contexts.filter (fun p => !(p.1 == c)) }

/-! ## RunScript (v8go.cc:224-260) -/

/-- Black-box behaviour of `Script::Compile` + `Script::Run` on the given
source: compile failure, run failure (each with the `TryCatch` contents
observed afterwards), or the resulting heap value. -/
inductive ScriptOutcome where
  | compileError (tc : TryCatchInfo)
  | runtimeError (tc : TryCatchInfo)
  | success (result : JSValue)
  deriving DecidableEq

/-- The `RtnValue` record: a nullable value handle plus an embedded
`RtnError` (initialised `{nullptr, nullptr}` at v8go.cc:240). -/
structure RtnValue where
  value : Option Nat
  error : RtnError
  deriving DecidableEq

/-- Embedding of `RunScript` (v8go.cc:224-260). The context handle is dereferenced
unconditionally (outer `none` = undefined on a bad handle). On success
the fresh `m_value` gets `val->ctx_ptr = ctx` (v8go.cc:255). -/
def RunScript (w : World) (ctxPtr : Nat) (source origin : String)
    (outcome : ScriptOutcome) : Option RtnValue × World :=
  match w.contexts.lookup ctxPtr with
  | none => (none, w)
  | some ctx =>
    match outcome with
    | ScriptOutcome.compileError tc =>
      (some { value := none, error := ExceptionError tc }, w)
    | ScriptOutcome.runtimeError tc =>
      (some { value := none, error := ExceptionError tc }, w)
    | ScriptOutcome.success result =>
      (some { value := some w.nextId
              error := { msg := none, location := none, stack := none } },
       { w with
         values := (w.nextId,
           { ptr := result, iso := ctx.iso, ctx_ptr := some ctxPtr }) :: w.values
         nextId := w.nextId + 1 })

/-! ## Value constructors (v8go.cc:286-356)

Each sets `val->iso` and `val->ptr` and returns; none of them assigns
`val->ctx_ptr`, which therefore stays indeterminate (`none`). -/

/-- Embedding of `NewValueInteger` (v8go.cc:286-292). -/
def NewValueInteger (w : World) (isoPtr : Nat) (v : Int) : Option Nat × World :=
  match w.isolates.lookup isoPtr with
  | none => (none, w)
  | some _ =>
    (some w.nextId,
     { w with
       values := (w.nextId,
         { ptr := JSValue.int v, iso := isoPtr, ctx_ptr := none }) :: w.values
       nextId := w.nextId + 1 })

/-- Embedding of `NewValueIntegerFromUnsigned` (v8go.cc:294-300). -/
def NewValueIntegerFromUnsigned (w : World) (isoPtr : Nat) (v : Nat) :
    Option Nat × World :=
  match w.isolates.lookup isoPtr with
  | none => (none, w)
  | some _ =>
    (some w.nextId,
     { w with
       values := (w.nextId,
         { ptr := JSValue.int (Int.ofNat (v % 2 ^ 32)), iso := isoPtr,
           ctx_ptr := none }) :: w.values
       nextId := w.nextId + 1 })

/-- Embedding of `NewValueString` (v8go.cc:302-308): `String::NewFromUtf8` of the
null-terminated input. -/
def NewValueString (w : World) (isoPtr : Nat) (v : String) : Option Nat × World :=
  match w.isolates.lookup isoPtr with
  | none => (none, w)
  | some _ =>
    (some w.nextId,
     { w with
       values := (w.nextId,
         { ptr := JSValue.str v, iso := isoPtr, ctx_ptr := none }) :: w.values
       nextId := w.nextId + 1 })

/-- Embedding of `NewValueBoolean` (v8go.cc:310-316): the C `int` converts to `bool`
by the nonzero test. -/
def NewValueBoolean (w : World) (isoPtr : Nat) (v : Int) : Option Nat × World :=
  match w.isolates.lookup isoPtr with
  | none => (none, w)
  | some _ =>
    (some w.nextId,
     { w with
       values := (w.nextId,
         { ptr := JSValue.boolean (!(v == 0)), iso := isoPtr,
           ctx_ptr := none }) :: w.values
       nextId := w.nextId + 1 })

/-- Embedding of `NewValueNumber` (v8go.cc:318-324); the double is carried as its
uninterpreted bit pattern. -/
def NewValueNumber (w : World) (isoPtr : Nat) (bits : Nat) : Option Nat × World :=
  match w.isolates.lookup isoPtr with
  | none => (none, w)
  | some _ =>
    (some w.nextId,
     { w with
       values := (w.nextId,
         { ptr := JSValue.num (bits % 2 ^ 64), iso := isoPtr,
           ctx_ptr := none }) :: w.values
       nextId := w.nextId + 1 })

/-- Embedding of `NewValueBigInt` (v8go.cc:326-332). -/
def NewValueBigInt (w : World) (isoPtr : Nat) (v : Int) : Option Nat × World :=
  match w.isolates.lookup isoPtr with
  | none => (none, w)
  | some _ =>
    (some w.nextId,
     { w with
       values := (w.nextId,
         { ptr := JSValue.bigint v, iso := isoPtr, ctx_ptr := none }) :: w.values
       nextId := w.nextId + 1 })

/-- Embedding of `NewValueBigIntFromUnsigned` (v8go.cc:334-340). -/
def NewValueBigIntFromUnsigned (w : World) (isoPtr : Nat) (v : Nat) :
    Option Nat × World :=
  match w.isolates.lookup isoPtr with
  | none => (none, w)
  | some _ =>
    (some w.nextId,
     { w with
       values := (w.nextId,
         { ptr := JSValue.bigint (Int.ofNat (v % 2 ^ 64)), iso := isoPtr,
           ctx_ptr := none }) :: w.values
       nextId := w.nextId + 1 })

/-- Magnitude of a least-significant-first sequence of 64-bit words
(`BigInt::NewFromWords` semantics; each word is a `uint64_t`). -/
def natFromWords (words : List Nat) : Nat :=
  words.foldr (fun wd acc => wd % 2 ^ 64 + acc * 2 ^ 64) 0

/-- Semantics of `BigInt::NewFromWords(ctx, sign_bit, word_count, words)`: a nonzero
sign bit makes the value negative. -/
def bigIntFromWords (sign_bit : Int) (words : List Nat) : Int :=
  if sign_bit == 0 then Int.ofNat (natFromWords words)
  else -(Int.ofNat (natFromWords words))

/-- Embedding of `NewValueBigIntFromWords` (v8go.cc:342-356): a throwaway local
context is created purely to call the engine API (it is scope-local and
leaves no state behind); `ctx_ptr` is again never assigned. The word
array and its count are modelled together as a list. -/
def NewValueBigIntFromWords (w : World) (isoPtr : Nat) (sign_bit : Int)
    (words : List Nat) : Option Nat × World :=
  match w.isolates.lookup isoPtr with
  | none => (none, w)
  | some _ =>
    (some w.nextId,
     { w with
       values := (w.nextId,
         { ptr := JSValue.bigint (bigIntFromWords sign_bit words),
           iso := isoPtr, ctx_ptr := none }) :: w.values
       nextId := w.nextId + 1 })

/-- Embedding of `ValueDispose` (v8go.cc:358-360): a bare `delete`; `delete` of a null
pointer is a guaranteed no-op with no dereference. -/
def ValueDispose (w : World) (ptr : Option Nat) : World :=
  match ptr with
  | none => w
  | some v => { w with values := w.values.filter (fun p => !(p.1 == v)) }

/-! ## Value inspection and conversion (v8go.cc:276-425) -/

/-- The `LOCAL_VALUE` macro (v8go.cc:276-284): dereference the value
handle, read `val->ctx_ptr`, and enter the scope of that context via
`ctx->ptr.Get(iso)` — unconditionally. `none` marks the undefined
behaviour of following a dangling value handle, a never-assigned
`ctx_ptr`, or a dangling context back-reference. -/
def localValue (w : World) (ptr : Nat) : Option (MValue × MCtx) :=
  match w.values.lookup ptr with
  | none => none
  | some val =>
    match val.ctx_ptr with
    | none => none
    | some c =>
      match w.contexts.lookup c with
      | none => none
      | some ctx => some (val, ctx)

/-- Semantics of `String::Utf8Value(iso, value)`: engine stringification. Exact for
the kinds the claims exercise; double formatting is uninterpreted. -/
def jsUtf8 : JSValue → String
  | JSValue.str s => s
  | JSValue.int n => toString n
  | JSValue.num bits => toString bits
  | JSValue.boolean b => if b then "true" else "false"
  | JSValue.bigint n => toString n

/-- Embedding of `ValueToString` (v8go.cc:401-405): stringify inside the
context scope of the value, then `CopyString` (the `Utf8Value` overload, which maps
empty text to the null pointer). -/
def ValueToString (w : World) (ptr : Nat) : Option (Option String) :=
  (localValue w ptr).map (fun p => CopyStringUtf8 (jsUtf8 p.1.ptr))

/-- Semantics of `value->ToBigInt(ctx)`: identity on BigInt values; the
engine coercions from other kinds are outside the scope of the claims and
abstracted as
failing (an empty `MaybeLocal`). -/
def jsToBigInt : JSValue → Option Int
  | JSValue.bigint n => some n
  | _ => none

/-- The `ValueBigInt` record `{words, word_count, sign_bit}`. -/
structure ValueBigInt where
  words : List Nat
  word_count : Nat
  sign_bit : Int
  deriving DecidableEq

/-- Least-significant-first base-2^64 digits of a natural number; the
first argument is fuel (`n` itself suffices, since the value shrinks by a
factor of 2^64 each step). -/
def wordsOfNatAux : Nat → Nat → List Nat
  | 0, _ => []
  | _ + 1, 0 => []
  | fuel + 1, n + 1 => ((n + 1) % 2 ^ 64) :: wordsOfNatAux fuel ((n + 1) / 2 ^ 64)

/-- Semantics of the `BigInt::ToWordsArray` word sequence. -/
def wordsOfNat (n : Nat) : List Nat := wordsOfNatAux n n

/-- Embedding of `WordCount` + `ToWordsArray` (v8go.cc:419-423): sign bit and
least-significant-first magnitude words of a BigInt. -/
def bigIntToWords (n : Int) : ValueBigInt :=
  { words := wordsOfNat n.natAbs
    word_count := (wordsOfNat n.natAbs).length
    sign_bit := if n < 0 then 1 else 0 }

/-- Embedding of `ValueToBigInt` (v8go.cc:412-425): `LOCAL_VALUE`, then `ToBigInt`
(inner `none` is the `{nullptr, 0}` return), then the words array. -/
def ValueToBigInt (w : World) (ptr : Nat) : Option (Option ValueBigInt) :=
  (localValue w ptr).map (fun p =>
    match jsToBigInt p.1.ptr with
    | none => none
    | some n => some (bigIntToWords n))

/-- Embedding of `ValueIsString` (v8go.cc:457-460). -/
def ValueIsString (w : World) (ptr : Nat) : Option Bool :=
  (localValue w ptr).map (fun p =>
    match p.1.ptr with
    | JSValue.str _ => true
    | _ => false)

/-- Embedding of `ValueIsBigInt` (v8go.cc:477-480). -/
def ValueIsBigInt (w : World) (ptr : Nat) : Option Bool :=
  (localValue w ptr).map (fun p =>
    match p.1.ptr with
    | JSValue.bigint _ => true
    | _ => false)

/-- Embedding of `ValueIsBoolean` (v8go.cc:482-485). -/
def ValueIsBoolean (w : World) (ptr : Nat) : Option Bool :=
  (localValue w ptr).map (fun p =>
    match p.1.ptr with
    | JSValue.boolean _ => true
    | _ => false)

/-- Embedding of `ValueIsNumber` (v8go.cc:487-490): true for both engine integers and
doubles. -/
def ValueIsNumber (w : World) (ptr : Nat) : Option Bool :=
  (localValue w ptr).map (fun p =>
    match p.1.ptr with
    | JSValue.int _ => true
    | JSValue.num _ => true
    | _ => false)

/-! ## Concrete worlds used by witnesses and counterexamples -/

/-- A world holding one fresh isolate (handle 0). -/
def wIso : World := (NewIsolate emptyWorld zeroHeapStatistics).2

/-- World `wIso` after `NewContext(0, null)`: context handle 1. -/
def wCtx : World := (NewContext wIso 0 none).2

/-! ## Helper lemmas -/

theorem string_length_zero_iff (s : String) : s.length = 0 ↔ s = "" := by
  cases s with
  | mk data =>
    rw [show ("" : String) = ⟨[]⟩ from rfl]
    simp [String.length, String.ext_iff]

theorem copyStringUtf8_isSome_iff (s : String) :
    (CopyStringUtf8 s).isSome = true ↔ s ≠ "" := by
  unfold CopyStringUtf8
  split
  · simp_all [string_length_zero_iff]
  · simp_all [string_length_zero_iff]

theorem copyStringUtf8_ne_some_empty (s : String) : CopyStringUtf8 s ≠ some "" := by
  unfold CopyStringUtf8
  split
  · simp
  · simp only [CopyStringStd, Option.some.injEq]
    intro h
    simp_all [string_length_zero_iff]

theorem lookup_setEntry {α : Type} (l : List (Nat × α)) (k : Nat) (v x : α)
    (h : l.lookup k = some x) : (setEntry l k v).lookup k = some v := by
  induction l with
  | nil => simp [List.lookup] at h
  | cons p t ih =>
    obtain ⟨a, b⟩ := p
    unfold setEntry
    simp only [List.map_cons]
    by_cases hk : a = k
    · subst hk
      rw [if_pos rfl]
      simp [List.lookup]
    · rw [if_neg hk]
      have hb : (k == a) = false := by simp [Ne.symm hk]
      simp only [List.lookup, hb] at h ⊢
      exact ih h

theorem NewContext_isolate_flag (w : World) (i : Nat) (iso : IsoState)
    (h : w.isolates.lookup i = some iso) :
    (NewContext w i none).2.isolates.lookup i =
      some { iso with captureStackTraces := true } := by
  unfold NewContext
  rw [h]
  exact lookup_setEntry w.isolates i _ iso h

/-! ## Claim theorems -/

/-- C1 (code bug): the string round trip
`ValueToString(NewValueString(env, s)) = s` is defeated by the code. The
handle built by `NewValueString` stores the string but never assigns the
`ctx_ptr` back-reference, and `ValueToString` unconditionally enters a
context scope through that back-reference (`LOCAL_VALUE`), so the
conversion dereferences an indeterminate pointer (modelled as `none`).
Independently, even with a valid context the empty string would come back
as the null pointer (`CopyString` maps empty text to null), while a
non-empty string would survive the string-marshalling layer intact. -/
theorem NewValueString_roundtrip_defeated :
    (NewValueString wIso 0 "a").1 = some 1 ∧
    (NewValueString wIso 0 "a").2.values.lookup 1 =
      some ⟨JSValue.str "a", 0, none⟩ ∧
    ValueToString (NewValueString wIso 0 "a").2 1 = none ∧
    CopyStringUtf8 "a" = some "a" ∧
    CopyStringUtf8 "" = none :=
  ⟨rfl, rfl, rfl, rfl, rfl⟩

/-- C2 (amended): for every `RunScript` call on a live context, on
success the value is present and the error message is null, and on
compile or execution failure the value is null and the error message is
present if and only if execution was terminated or the captured exception
stringifies to non-empty text; when a non-terminated exception
stringifies to the empty string, both components are null. -/
theorem RunScript_value_error_exclusive (w : World) (cid : Nat) (ctx : MCtx)
    (source origin : String) (oc : ScriptOutcome)
    (h : w.contexts.lookup cid = some ctx) :
    ∃ r w2, RunScript w cid source origin oc = (some r, w2) ∧
      (match oc with
       | ScriptOutcome.success _ => r.value.isSome = true ∧ r.error.msg = none
       | ScriptOutcome.compileError tc =>
           r.value = none ∧
           (r.error.msg.isSome = true ↔
             (tc.hasTerminated = true ∨ tc.exceptionText ≠ ""))
       | ScriptOutcome.runtimeError tc =>
           r.value = none ∧
           (r.error.msg.isSome = true ↔
             (tc.hasTerminated = true ∨ tc.exceptionText ≠ ""))) := by
  unfold RunScript
  rw [h]
  cases oc with
  | compileError tc =>
    refine ⟨_, _, rfl, rfl, ?_⟩
    unfold ExceptionError
    cases htc : tc.hasTerminated with
    | true => simp
    | false => simp [copyStringUtf8_isSome_iff]
  | runtimeError tc =>
    refine ⟨_, _, rfl, rfl, ?_⟩
    unfold ExceptionError
    cases htc : tc.hasTerminated with
    | true => simp
    | false => simp [copyStringUtf8_isSome_iff]
  | success rv => exact ⟨_, _, rfl, rfl, rfl⟩

/-- C2 witness: a successful run of `1+1` yields a present value and a
null error message. -/
theorem RunScript_value_error_exclusive_witness :
    ∃ r w2, RunScript wCtx 1 "1+1" "main.js" (ScriptOutcome.success (JSValue.int 2)) =
        (some r, w2) ∧
      (r.value.isSome = true ∧ r.error.msg = none) := by
  have h := RunScript_value_error_exclusive wCtx 1 ⟨0, emptyObjectTemplate⟩
    "1+1" "main.js" (ScriptOutcome.success (JSValue.int 2)) rfl
  exact h

/-- C2 counterexample: a script whose thrown value stringifies to the
empty string (for example `throw ""`) makes `RunScript` return a pair
whose value AND error message are both null, contradicting the claim
that exactly one component is non-null. -/
theorem RunScript_both_components_null :
    (RunScript wCtx 1 "throw \x22\x22" "main.js" (ScriptOutcome.runtimeError
      ⟨false, "", none, none⟩)).1 =
    some { value := none, error := { msg := none, location := none, stack := none } } :=
  rfl

/-- C3 (amended): for every captured exception with the terminated flag
set, the error record is exactly the fixed sentinel message
`ExecutionTerminated: script execution has been terminated` with both
location and stack absent. (The sentinel text is not the string
`execution terminated` the claim names.) -/
theorem ExceptionError_terminated_sentinel (tc : TryCatchInfo)
    (h : tc.hasTerminated = true) :
    ExceptionError tc =
      { msg := some "ExecutionTerminated: script execution has been terminated"
        location := none
        stack := none } := by
  unfold ExceptionError
  rw [h]
  rfl

/-- C3 witness at a concrete terminated capture. -/
theorem ExceptionError_terminated_sentinel_witness :
    ExceptionError ⟨true, "", none, none⟩ =
      { msg := some "ExecutionTerminated: script execution has been terminated"
        location := none
        stack := none } :=
  ExceptionError_terminated_sentinel ⟨true, "", none, none⟩ rfl

/-- C3 counterexample: at a terminated capture the message is the long
sentinel, which is not the string `execution terminated` the claim
states. -/
theorem ExceptionError_sentinel_is_not_execution_terminated :
    (ExceptionError ⟨true, "", none, none⟩).msg =
      some "ExecutionTerminated: script execution has been terminated" ∧
    (ExceptionError ⟨true, "", none, none⟩).msg ≠ some "execution terminated" :=
  ⟨rfl, by decide⟩

/-- C4: for a non-terminated captured exception to which the engine
attached a message, the location field is present and equals the resource
name, then a colon and the line number only when the engine reports a
line, then a colon and the reported start column plus one (1-based) only
when the engine reports a column; each unavailable piece is omitted from
the string rather than written as zero. -/
theorem ExceptionError_location_format (tc : TryCatchInfo) (name : String)
    (lineNo colNo : Option Int)
    (hterm : tc.hasTerminated = false)
    (hmsg : tc.message = some ⟨name, lineNo, colNo⟩) :
    (ExceptionError tc).location = some (match lineNo, colNo with
      | some l, some c => name ++ ":" ++ toString l ++ ":" ++ toString (c + 1)
      | some l, none => name ++ ":" ++ toString l
      | none, some c => name ++ ":" ++ toString (c + 1)
      | none, none => name) := by
  unfold ExceptionError
  rw [hterm]
  simp only [Bool.false_eq_true, if_false, hmsg, Option.map_some]
  cases lineNo <;> cases colNo <;>
    simp [locationString, CopyStringStd, String.append_assoc]

/-- C4 witness: resource `file.js`, line 3, reported column 5 formats as
`file.js:3:6`. -/
theorem ExceptionError_location_format_witness :
    (ExceptionError ⟨false, "x", some ⟨"file.js", some 3, some 5⟩, none⟩).location =
      some "file.js:3:6" := by
  have h := ExceptionError_location_format
    ⟨false, "x", some ⟨"file.js", some 3, some 5⟩, none⟩
    "file.js" (some 3) (some 5) rfl rfl
  exact h

/-- C5 (amended): the message and stack fields of an error record are
never empty-but-present strings; in particular a stack trace the engine
reports as the empty string is collapsed to the absent marker, so callers
cannot distinguish an empty stack trace from no stack trace. -/
theorem ExceptionError_empty_collapsed_to_absent (tc : TryCatchInfo) :
    (ExceptionError tc).msg ≠ some "" ∧
    (ExceptionError tc).stack ≠ some "" ∧
    (tc.stackTrace = some "" → (ExceptionError tc).stack = none) := by
  unfold ExceptionError
  cases htc : tc.hasTerminated with
  | true =>
    simp only [if_true]
    exact ⟨by decide, by simp, fun _ => by trivial⟩
  | false =>
    simp only [Bool.false_eq_true, if_false]
    refine ⟨copyStringUtf8_ne_some_empty _, ?_, ?_⟩
    · cases hst : tc.stackTrace with
      | none => simp
      | some st => simpa using copyStringUtf8_ne_some_empty st
    · intro hst
      rw [hst]
      rfl

/-- C5 witness: an engine-reported empty stack trace comes back absent. -/
theorem ExceptionError_empty_collapsed_witness :
    (ExceptionError ⟨false, "boom", none, some ""⟩).stack = none :=
  (ExceptionError_empty_collapsed_to_absent ⟨false, "boom", none, some ""⟩).2.2 rfl

/-- C5 counterexample: an engine-reported empty stack trace and an absent
stack trace produce the same absent field, refuting the claim that the
empty one is returned empty-but-present and distinguishable. -/
theorem ExceptionError_empty_stack_equals_absent_stack :
    (ExceptionError ⟨false, "boom", none, some ""⟩).stack = none ∧
    (ExceptionError ⟨false, "boom", none, none⟩).stack = none :=
  ⟨rfl, rfl⟩

/-- C6 (code bug): the BigInt words round trip is defeated by the code.
`NewValueBigIntFromWords(sign=0, words=[1])` stores BigInt 1 but never
assigns the `ctx_ptr` back-reference, and `ValueToBigInt` enters a
context scope through that back-reference (`LOCAL_VALUE`), dereferencing
an indeterminate pointer (modelled as `none`) before it can convert. The
underlying value itself would decompose back to sign 0 and words [1], as
the last two conjuncts show. -/
theorem NewValueBigIntFromWords_roundtrip_defeated :
    (NewValueBigIntFromWords wIso 0 0 [1]).1 = some 1 ∧
    (NewValueBigIntFromWords wIso 0 0 [1]).2.values.lookup 1 =
      some ⟨JSValue.bigint 1, 0, none⟩ ∧
    ValueToBigInt (NewValueBigIntFromWords wIso 0 0 [1]).2 1 = none ∧
    bigIntFromWords 0 [1] = 1 ∧
    bigIntToWords (bigIntFromWords 0 [1]) = ⟨[1], 1, 0⟩ :=
  ⟨rfl, rfl, rfl, rfl, rfl⟩

/-- C7: `NewContext` on a live isolate with a null template argument
returns a context whose global object layout is the fresh empty template,
enables capture of stack traces for uncaught exceptions on that isolate,
and the setting is idempotent: a second `NewContext` on the same isolate
leaves the isolate state unchanged. -/
theorem NewContext_nullTemplate_capture (w : World) (i : Nat) (iso : IsoState)
    (h : w.isolates.lookup i = some iso) :
    (NewContext w i none).1 = some w.nextId ∧
    (NewContext w i none).2.contexts.lookup w.nextId =
      some ⟨i, emptyObjectTemplate⟩ ∧
    (NewContext w i none).2.isolates.lookup i =
      some { iso with captureStackTraces := true } ∧
    (NewContext (NewContext w i none).2 i none).2.isolates.lookup i =
      (NewContext w i none).2.isolates.lookup i := by
  have h2 := NewContext_isolate_flag w i iso h
  have h4 := NewContext_isolate_flag (NewContext w i none).2 i
    ({ iso with captureStackTraces := true }) h2
  refine ⟨?_, ?_, h2, ?_⟩
  · unfold NewContext
    rw [h]
  · unfold NewContext
    rw [h]
    simp [List.lookup]
  · rw [h4, h2]

/-- C7 witness: creating a context on a fresh isolate flips the
capture-stack-traces flag to true. -/
theorem NewContext_nullTemplate_capture_witness :
    (NewContext wIso 0 none).2.isolates.lookup 0 =
      some { captureStackTraces := true, heap := zeroHeapStatistics } :=
  (NewContext_nullTemplate_capture wIso 0
    ⟨false, zeroHeapStatistics⟩ rfl).2.2.1

/-- C8: `IsolationGetHeapStatistics` on a null handle returns the record
whose eleven unsigned-integer fields are all zero, and leaves the world
(every isolate, context, template and value) exactly as it was. -/
theorem IsolationGetHeapStatistics_null_zeroed (w : World) :
    IsolationGetHeapStatistics w none =
      (some { total_heap_size := 0, total_heap_size_executable := 0,
              total_physical_size := 0, total_available_size := 0,
              used_heap_size := 0, heap_size_limit := 0, malloced_memory := 0,
              external_memory := 0, peak_malloced_memory := 0,
              number_of_native_contexts := 0, number_of_detached_contexts := 0 }, w) :=
  rfl

/-- C9: every disposal operation (isolate, context, object template and
value) is a no-op on a null handle: the world is returned unchanged and
the null branch performs no dereference (for the two bare `delete` cases
this mirrors the C++ guarantee that `delete` of a null pointer does
nothing). -/
theorem dispose_null_handle_noop (w : World) :
    IsolateDispose w none = w ∧ ContextDispose w none = w ∧
    ObjectTemplateDispose w none = w ∧ ValueDispose w none = w :=
  ⟨rfl, rfl, rfl, rfl⟩

/-- C10: no host value constructor (`NewValueInteger`,
`NewValueIntegerFromUnsigned`, `NewValueString`, `NewValueBoolean`,
`NewValueNumber`, `NewValueBigInt`, `NewValueBigIntFromUnsigned`,
`NewValueBigIntFromWords`) ever assigns the `ctx_ptr` context
back-reference of the `m_value` it allocates, and every modelled
value-inspection or value-conversion operation enters the context scope
through that back-reference unconditionally (`LOCAL_VALUE`), so on every
host-constructed handle the no-null-dereference precondition fails and
the operation is undefined (modelled as `none`). -/
theorem host_constructed_values_lack_ctx (w : World) (i : Nat) (iso : IsoState)
    (n v64 sb bi : Int) (u bits u64 : Nat) (s : String) (ws : List Nat)
    (h : w.isolates.lookup i = some iso) :
    ((NewValueInteger w i n).2.values.lookup w.nextId =
      some ⟨JSValue.int n, i, none⟩) ∧
    ((NewValueIntegerFromUnsigned w i u).2.values.lookup w.nextId =
      some ⟨JSValue.int (Int.ofNat (u % 2 ^ 32)), i, none⟩) ∧
    ((NewValueString w i s).2.values.lookup w.nextId =
      some ⟨JSValue.str s, i, none⟩) ∧
    ((NewValueBoolean w i bi).2.values.lookup w.nextId =
      some ⟨JSValue.boolean (!(bi == 0)), i, none⟩) ∧
    ((NewValueNumber w i bits).2.values.lookup w.nextId =
      some ⟨JSValue.num (bits % 2 ^ 64), i, none⟩) ∧
    ((NewValueBigInt w i v64).2.values.lookup w.nextId =
      some ⟨JSValue.bigint v64, i, none⟩) ∧
    ((NewValueBigIntFromUnsigned w i u64).2.values.lookup w.nextId =
      some ⟨JSValue.bigint (Int.ofNat (u64 % 2 ^ 64)), i, none⟩) ∧
    ((NewValueBigIntFromWords w i sb ws).2.values.lookup w.nextId =
      some ⟨JSValue.bigint (bigIntFromWords sb ws), i, none⟩) ∧
    (∀ w2 vid mv, w2.values.lookup vid = some mv → mv.ctx_ptr = none →
      localValue w2 vid = none ∧ ValueToString w2 vid = none ∧
      ValueToBigInt w2 vid = none ∧ ValueIsString w2 vid = none ∧
      ValueIsBigInt w2 vid = none ∧ ValueIsBoolean w2 vid = none ∧
      ValueIsNumber w2 vid = none) := by
  refine ⟨?_, ?_, ?_, ?_, ?_, ?_, ?_, ?_, ?_⟩
  · unfold NewValueInteger; rw [h]; simp [List.lookup]
  · unfold NewValueIntegerFromUnsigned; rw [h]; simp [List.lookup]
  · unfold NewValueString; rw [h]; simp [List.lookup]
  · unfold NewValueBoolean; rw [h]; simp [List.lookup]
  · unfold NewValueNumber; rw [h]; simp [List.lookup]
  · unfold NewValueBigInt; rw [h]; simp [List.lookup]
  · unfold NewValueBigIntFromUnsigned; rw [h]; simp [List.lookup]
  · unfold NewValueBigIntFromWords; rw [h]; simp [List.lookup]
  · intro w2 vid mv h1 h2
    have hloc : localValue w2 vid = none := by
      unfold localValue
      rw [h1]
      simp [h2]
    exact ⟨hloc, by simp [ValueToString, hloc], by simp [ValueToBigInt, hloc],
      by simp [ValueIsString, hloc], by simp [ValueIsBigInt, hloc],
      by simp [ValueIsBoolean, hloc], by simp [ValueIsNumber, hloc]⟩

/-- C10 witness: converting a host-constructed string handle hits the
unsatisfiable context precondition. -/
theorem host_constructed_values_lack_ctx_witness :
    ValueToString (NewValueString wIso 0 "abc").2 1 = none := by
  have h := host_constructed_values_lack_ctx wIso 0
    ⟨false, zeroHeapStatistics⟩ 0 0 0 0 0 0 0 "abc" [] rfl
  exact ((h.2.2.2.2.2.2.2.2) (NewValueString wIso 0 "abc").2 1
    ⟨JSValue.str "abc", 0, none⟩ h.2.2.1 rfl).2.1
